import Mathlib

/-!
Verification of the refactor validation-and-application protocol of
`src/commands/refactor.ts` (Dart-Code).  The stateful command handler is
shallowly embedded: every suspension point (analysis-server response, input
box reply, choice-dialog reply, the re-read of `document.version` at the
final gate) is an explicit input, and the observable effects (requests
issued, messages shown, input boxes opened, the edit application) are
collected in an explicit result record.
-/

namespace Refactor

/-- Modelled from the spec: problem severity is one of FATAL, ERROR, WARNING
(the `as.RefactoringProblem` declarations live in
`../analysis/analysis_server_types`, which is not under `src/`). -/
inductive Severity
  | FATAL
  | ERROR
  | WARNING
deriving DecidableEq, Repr

/-- Modelled from the spec: a problem is a severity together with a message. -/
structure Problem where
  severity : Severity
  message : String
deriving DecidableEq, Repr

/-- Modelled from the spec: an opaque edit-set (`change`) produced by the
analysis server; the core never inspects it, only forwards it. -/
structure SourceChange where
  id : Nat
deriving DecidableEq, Repr

/-- Modelled from the spec: an opaque parameter descriptor, copied verbatim
from feedback to options by the extract-method resolver. -/
abbrev RefactoringMethodParameter := String

/-- Modelled from the spec: the extract-method feedback payload.  The source
guards `feedback.names && feedback.names.length`, so `names` may be absent. -/
structure ExtractMethodFeedback where
  names : Option (List String)
  parameters : List RefactoringMethodParameter
  returnType : String
deriving DecidableEq, Repr

/-- The only feedback variant used by the source is the extract-method one
(the `as ExtractMethodFeedback` cast in `getExtractMethodArgs` is an
unchecked identity at runtime). -/
abbrev RefactoringFeedback := ExtractMethodFeedback

/-- The options object built by `getExtractMethodArgs` (refactor.ts 133-139). -/
structure RefactoringOptions where
  createGetter : Bool
  extractAll : Bool
  name : String
  parameters : List RefactoringMethodParameter
  returnType : String
deriving DecidableEq, Repr

/-- The type `as.EditGetRefactoringResponse`, the response to one `editGetRefactoring`
request: three ordered problem lists, optional feedback, optional edit-set. -/
structure EditGetRefactoringResponse where
  initialProblems : List Problem
  optionsProblems : List Problem
  finalProblems : List Problem
  feedback : Option RefactoringFeedback
  change : Option SourceChange
deriving DecidableEq, Repr

/-- A position in the document (vscode `Position`). -/
structure Position where
  line : Nat
  character : Nat
deriving DecidableEq, Repr

/-- A range in the document (vscode `Range`); `endPos` stands for `end`. -/
structure Range where
  start : Position
  endPos : Position
deriving DecidableEq, Repr

/-- The slice of the vscode `TextDocument` interface the command reads:
`fileName`, `isClosed`, `version` and `offsetAt`. -/
structure TextDocument where
  fileName : String
  isClosed : Bool
  version : Nat
  offsetAt : Position → Nat

/-- The request record built by `getRefactor` (refactor.ts 60-67); `length`
is a TS number difference, hence an `Int`. -/
structure RefactorRequest where
  file : String
  kind : String
  length : Int
  offset : Nat
  options : Option RefactoringOptions
  validateOnly : Bool
deriving DecidableEq, Repr

/-- Severity level of a user-facing notification. -/
inductive MsgLevel
  | error
  | warning
deriving DecidableEq, Repr

/-- One `showErrorMessage` / `showWarningMessage` call: its level, its text,
and the choice buttons offered (empty for fire-and-forget notifications). -/
structure Shown where
  level : MsgLevel
  message : String
  choices : List String
deriving DecidableEq, Repr

/-- The options record passed to `vs.window.showInputBox` (refactor.ts 128). -/
structure InputBoxOptions where
  prompt : String
  value : Option String
deriving DecidableEq, Repr

/-- Modelled from the spec: the `unique` helper imported from `../utils` is
not under `src/`; the spec's de-duplication rule collapses duplicate message
strings to a single displayed line, keeping first-occurrence order. -/
def unique (xs : List String) : List String :=
  xs.foldl (fun acc x => if x ∈ acc then acc else acc ++ [x]) []

/-- refactor.ts 7. -/
def REFACTOR_FAILED_DOC_MODIFIED : String :=
  "This refactor cannot be applied because the document has changed."

/-- refactor.ts 8. -/
def REFACTOR_ANYWAY : String := "Refactor Anyway"

/-- The concatenation `initialProblems.concat(optionsProblems).concat(finalProblems)`
computed in both `shouldAbortRefactor` and `shouldApplyEdits`. -/
def allProblems (r : EditGetRefactoringResponse) : List Problem :=
  r.initialProblems ++ r.optionsProblems ++ r.finalProblems

/-- The selection `.filter((e) => e.severity === "FATAL")` over the concatenated lists. -/
def fatalProblems (r : EditGetRefactoringResponse) : List Problem :=
  (allProblems r).filter (fun e => decide (e.severity = Severity.FATAL))

/-- The selection `.filter((e) => e.severity === "ERROR" || e.severity === "WARNING")`,
the `editWarnings` of `shouldApplyEdits`. -/
def warningProblems (r : EditGetRefactoringResponse) : List Problem :=
  (allProblems r).filter
    (fun e => decide (e.severity = Severity.ERROR ∨ e.severity = Severity.WARNING))

/-- The truthiness test `!!allProblems.find((e) => e.severity === "ERROR")`. -/
def hasErrors (r : EditGetRefactoringResponse) : Bool :=
  (allProblems r).any (fun e => decide (e.severity = Severity.ERROR))

/-- Translation of `shouldAbortRefactor` (refactor.ts 70-81): returns the
boolean the source returns together with the message it shows, if any. -/
def shouldAbortRefactor (validationResult : EditGetRefactoringResponse) :
    Bool × List Shown :=
  match fatalProblems validationResult with
  | [] => (false, [])
  | p :: _ => (true, [{ level := .error, message := p.message, choices := [] }])

/-- Translation of `shouldApplyEdits` (refactor.ts 83-117).  `documentVersion`
is the value of `document.version` when line 111 reads it; `proceedChoice`
is what the awaited choice dialog returned (`none` = dismissed). -/
def shouldApplyEdits (editResult : EditGetRefactoringResponse)
    (documentVersion originalDocumentVersion : Nat)
    (proceedChoice : Option String) : Bool × List Shown :=
  let editFatals := fatalProblems editResult
  let editWarnings := warningProblems editResult
  if editFatals.length ≠ 0 then
    (false,
     [{ level := .error
        message := String.intercalate "\n\n" (unique (editFatals.map Problem.message))
          ++ "\n\nYour refactor was not applied."
        choices := [] }])
  else if editResult.change.isNone then
    (false, [])
  else
    let prompt : List Shown :=
      if editWarnings.length ≠ 0 then
        [{ level := if hasErrors editResult then .error else .warning
           message := String.intercalate "\n\n" (unique (editWarnings.map Problem.message))
           choices := [REFACTOR_ANYWAY] }]
      else []
    let applyEdits : Bool :=
      if editWarnings.length ≠ 0 then decide (proceedChoice = some REFACTOR_ANYWAY)
      else true
    if applyEdits = true ∧ documentVersion ≠ originalDocumentVersion then
      (false, prompt ++ [{ level := .error, message := REFACTOR_FAILED_DOC_MODIFIED, choices := [] }])
    else
      (applyEdits, prompt)

/-- The default `feedback.names && feedback.names.length ? feedback.names[0] : undefined`
(refactor.ts 127). -/
def suggestedName (feedback : ExtractMethodFeedback) : Option String :=
  match feedback.names with
  | some names => if names.length > 0 then names.head? else none
  | none => none

/-- Translation of `getExtractMethodArgs` (refactor.ts 125-140).  `nameInput`
is what the awaited `showInputBox` returned (`none` = cancelled).  The result
carries the `InputBoxOptions` the prompt was opened with alongside the options
produced; `if (!name) return` makes both cancellation and the empty string
yield no options.  Reading `feedback.names` when the feedback payload is
absent raises a TypeError, modelled as `.error`. -/
def getExtractMethodArgs (f : Option RefactoringFeedback)
    (nameInput : Option String) :
    Except String (InputBoxOptions × Option RefactoringOptions) :=
  match f with
  | none => .error "TypeError: cannot read properties of undefined"
  | some feedback =>
    let box : InputBoxOptions :=
      { prompt := "Enter a name for the method", value := suggestedName feedback }
    match nameInput with
    | none => .ok (box, none)
    | some name =>
      if name = "" then .ok (box, none)
      else
        .ok (box, some
          { createGetter := false
            extractAll := false
            name := name
            parameters := feedback.parameters
            returnType := feedback.returnType })

/-- Translation of the `refactorOptions` lookup table (refactor.ts 10-12): indexing a plain
object, so an unregistered kind yields `undefined` (`none`). -/
def refactorOptions (kind : String) :
    Option (Option RefactoringFeedback → Option String →
      Except String (InputBoxOptions × Option RefactoringOptions)) :=
  if kind = "EXTRACT_METHOD" then some getExtractMethodArgs else none

/-- Translation of `getRefactor` (refactor.ts 53-68): the request record sent
to `analyzer.editGetRefactoring`. -/
def getRefactor (document : TextDocument) (refactorKind : String)
    (range : Range) (validateOnly : Bool)
    (options : Option RefactoringOptions) : RefactorRequest :=
  { file := document.fileName
    kind := refactorKind
    length := (document.offsetAt range.endPos : Int) - (document.offsetAt range.start : Int)
    offset := document.offsetAt range.start
    options := options
    validateOnly := validateOnly }

/-- The externally supplied outcomes of the suspension points of one
`performRefactor` invocation: the two analysis-server responses, the two user
replies, and the value `document.version` holds when `shouldApplyEdits`
re-reads it at the final gate. -/
structure Session where
  validationResult : EditGetRefactoringResponse
  editResult : EditGetRefactoringResponse
  nameInput : Option String
  proceedChoice : Option String
  versionAtFinalGate : Nat

/-- The observable effects of one `performRefactor` invocation. -/
structure RefactorResult where
  requests : List RefactorRequest
  messages : List Shown
  inputBoxes : List InputBoxOptions
  applied : Bool
  appliedChange : Option SourceChange
  crashed : Bool
deriving DecidableEq, Repr

/-- Translation of `performRefactor` (refactor.ts 28-51).  `crashed` records
an exception escaping the async function: invoking the `undefined` obtained
from `refactorOptions[refactorKind]` for an unregistered kind (line 41), or
the resolver dereferencing an absent feedback payload. -/
def performRefactor (document : Option TextDocument) (range : Range)
    (refactorKind : String) (s : Session) : RefactorResult :=
  match document with
  | none =>
    { requests := [], messages := [], inputBoxes := []
      applied := false, appliedChange := none, crashed := false }
  | some doc =>
    if doc.isClosed then
      { requests := [], messages := [], inputBoxes := []
        applied := false, appliedChange := none, crashed := false }
    else
      let originalDocumentVersion := doc.version
      let validateRequest := getRefactor doc refactorKind range true none
      let validationResult := s.validationResult
      let ab := shouldAbortRefactor validationResult
      if ab.1 then
        { requests := [validateRequest], messages := ab.2, inputBoxes := []
          applied := false, appliedChange := none, crashed := false }
      else
        match refactorOptions refactorKind with
        | none =>
          { requests := [validateRequest], messages := ab.2, inputBoxes := []
            applied := false, appliedChange := none, crashed := true }
        | some resolver =>
          match resolver validationResult.feedback s.nameInput with
          | .error _ =>
            { requests := [validateRequest], messages := ab.2, inputBoxes := []
              applied := false, appliedChange := none, crashed := true }
          | .ok (box, none) =>
            { requests := [validateRequest], messages := ab.2, inputBoxes := [box]
              applied := false, appliedChange := none, crashed := false }
          | .ok (box, some options) =>
            let editRequest := getRefactor doc refactorKind range false (some options)
            let editResult := s.editResult
            let gate := shouldApplyEdits editResult s.versionAtFinalGate
              originalDocumentVersion s.proceedChoice
            { requests := [validateRequest, editRequest]
              messages := ab.2 ++ gate.2
              inputBoxes := [box]
              applied := gate.1
              appliedChange := if gate.1 then editResult.change else none
              crashed := false }

/-- Sample document for concrete evaluations. -/
def sampleDoc : TextDocument :=
  { fileName := "lib/a.dart", isClosed := false, version := 5
    offsetAt := fun p => p.character }

/-- Sample range for concrete evaluations. -/
def sampleRange : Range := { start := ⟨0, 0⟩, endPos := ⟨0, 4⟩ }

/-- Sample extract-method feedback for concrete evaluations. -/
def sampleFeedback : ExtractMethodFeedback :=
  { names := some ["extracted"], parameters := [], returnType := "void" }

/-- A problem-free response carrying feedback and an edit-set. -/
def cleanResponse : EditGetRefactoringResponse :=
  { initialProblems := [], optionsProblems := [], finalProblems := []
    feedback := some sampleFeedback, change := some ⟨1⟩ }

/-- A session in which every step succeeds and the document never changes. -/
def okSession : Session :=
  { validationResult := cleanResponse, editResult := cleanResponse
    nameInput := some "computeTotal", proceedChoice := none
    versionAtFinalGate := 5 }

/-- A session whose validation response carries FATAL problems, the first of
them (in initial-options-final order) sitting in `optionsProblems`. -/
def fatalValidationSession : Session :=
  { validationResult :=
      { initialProblems := [{ severity := .ERROR, message := "an error first" }]
        optionsProblems := [{ severity := .FATAL, message := "first fatal" }]
        finalProblems := [{ severity := .FATAL, message := "second fatal" }]
        feedback := some sampleFeedback, change := none }
    editResult := cleanResponse, nameInput := some "x"
    proceedChoice := none, versionAtFinalGate := 5 }

/-- An edit response with duplicated FATAL messages and an edit-set. -/
def fatalEditResponse : EditGetRefactoringResponse :=
  { initialProblems := [{ severity := .FATAL, message := "dup" }]
    optionsProblems := [{ severity := .FATAL, message := "dup" },
                        { severity := .WARNING, message := "w" }]
    finalProblems := [{ severity := .FATAL, message := "other" }]
    feedback := none, change := some ⟨2⟩ }

/-- An edit response with ERROR and WARNING problems but no edit-set. -/
def noChangeResponse : EditGetRefactoringResponse :=
  { initialProblems := [{ severity := .ERROR, message := "e" }]
    optionsProblems := []
    finalProblems := [{ severity := .WARNING, message := "w" }]
    feedback := none, change := none }

/-- An edit response with duplicated WARNING messages, no FATAL problem and
an edit-set. -/
def warningEditResponse : EditGetRefactoringResponse :=
  { initialProblems := [{ severity := .WARNING, message := "careful" }]
    optionsProblems := [{ severity := .WARNING, message := "careful" }]
    finalProblems := [{ severity := .WARNING, message := "really" }]
    feedback := none, change := some ⟨3⟩ }

/-- The final gate of `shouldApplyEdits`, characterised: edits are approved
exactly when no FATAL problem exists, an edit-set is present, the re-read
document version equals the baseline, and either there was nothing to consent
to or the user chose `REFACTOR_ANYWAY`. -/
theorem shouldApplyEdits_fst_true_iff (e : EditGetRefactoringResponse)
    (dv ov : Nat) (c : Option String) :
    (shouldApplyEdits e dv ov c).1 = true ↔
      fatalProblems e = [] ∧ e.change.isSome = true ∧ dv = ov ∧
        (warningProblems e = [] ∨ c = some REFACTOR_ANYWAY) := by
  simp only [shouldApplyEdits]
  rcases hf : fatalProblems e with _ | ⟨p, ps⟩ <;>
    rcases hc : e.change with _ | ch <;>
      rcases hw : warningProblems e with _ | ⟨w, ws⟩ <;>
        by_cases hv : dv = ov <;>
          by_cases hch : c = some REFACTOR_ANYWAY <;>
            simp_all

/-- C1: for every invocation of performRefactor, the edit-set is handed to
the apply step only if the union of initialProblems, optionsProblems and
finalProblems of the edit-request response contains zero FATAL problems and
the document version at the final gate equals the version captured before
the validation request was issued. -/
theorem C1_apply_needs_no_fatals_and_fresh_version
    (doc : TextDocument) (range : Range) (kind : String) (s : Session)
    (h : (performRefactor (some doc) range kind s).applied = true) :
    fatalProblems s.editResult = [] ∧ s.versionAtFinalGate = doc.version := by
  simp only [performRefactor] at h
  split at h
  · simp at h
  · split at h
    · simp at h
    · split at h
      · simp at h
      · split at h
        · simp at h
        · simp at h
        · simp only at h
          have hg := (shouldApplyEdits_fst_true_iff s.editResult
            s.versionAtFinalGate doc.version s.proceedChoice).mp h
          exact ⟨hg.1, hg.2.2.1⟩

/-- Witness for C1 at a concrete successful invocation. -/
theorem C1_apply_needs_no_fatals_and_fresh_version_witness :
    fatalProblems okSession.editResult = [] ∧
      okSession.versionAtFinalGate = sampleDoc.version :=
  C1_apply_needs_no_fatals_and_fresh_version sampleDoc sampleRange
    "EXTRACT_METHOD" okSession (by decide)

/-- C2 counterexample: with a kind that has no entry in `refactorOptions`
("EXTRACT_WIDGET") and a validation response free of FATAL problems, the
invocation does NOT complete as a crash-free handled no-op: line 41 invokes
the `undefined` obtained from the lookup table and the TypeError escapes. -/
theorem C2_counterexample_unregistered_kind_crashes :
    ¬ (performRefactor (some sampleDoc) sampleRange "EXTRACT_WIDGET"
        okSession).crashed = false := by decide

/-- C2 (amended): for every refactoring kind with no resolver registered in
`refactorOptions`, performRefactor after a successful validation issues no
edit request, shows no message, opens no prompt and applies nothing, but it
terminates by raising a TypeError (calling the `undefined` map entry) rather
than by a handled silent no-op. -/
theorem C2_unregistered_kind_raises
    (doc : TextDocument) (range : Range) (kind : String) (s : Session)
    (hclosed : doc.isClosed = false)
    (hkind : refactorOptions kind = none)
    (hvalid : fatalProblems s.validationResult = []) :
    performRefactor (some doc) range kind s =
      { requests := [getRefactor doc kind range true none]
        messages := [], inputBoxes := []
        applied := false, appliedChange := none, crashed := true } := by
  simp [performRefactor, hclosed, hkind, shouldAbortRefactor, hvalid]

/-- Witness for C2 (amended) at a concrete unregistered kind. -/
theorem C2_unregistered_kind_raises_witness :
    performRefactor (some sampleDoc) sampleRange "EXTRACT_WIDGET" okSession =
      { requests := [getRefactor sampleDoc "EXTRACT_WIDGET" sampleRange true none]
        messages := [], inputBoxes := []
        applied := false, appliedChange := none, crashed := true } :=
  C2_unregistered_kind_raises sampleDoc sampleRange "EXTRACT_WIDGET" okSession
    (by decide) rfl (by decide)

/-- C3: whenever the validation response's three problem lists together
contain at least one FATAL problem, performRefactor aborts before the options
resolver is invoked — only the validation request was sent, no input box is
opened, nothing crashes even for an unregistered kind — and the single
message shown is that of the first FATAL problem in the order
initialProblems, optionsProblems, finalProblems. -/
theorem C3_validation_fatal_aborts_with_first_fatal_message
    (doc : TextDocument) (range : Range) (kind : String) (s : Session)
    (p : Problem) (ps : List Problem)
    (hclosed : doc.isClosed = false)
    (hfatal : fatalProblems s.validationResult = p :: ps) :
    performRefactor (some doc) range kind s =
      { requests := [getRefactor doc kind range true none]
        messages := [{ level := .error, message := p.message, choices := [] }]
        inputBoxes := [], applied := false, appliedChange := none
        crashed := false } := by
  simp [performRefactor, hclosed, shouldAbortRefactor, hfatal]

/-- Witness for C3: the ERROR problem listed first is skipped, the FATAL
problem from `optionsProblems` is the one shown, and the unregistered kind
does not crash because the resolver is never reached. -/
theorem C3_validation_fatal_witness :
    performRefactor (some sampleDoc) sampleRange "EXTRACT_WIDGET"
        fatalValidationSession =
      { requests := [getRefactor sampleDoc "EXTRACT_WIDGET" sampleRange true none]
        messages := [{ level := .error, message := "first fatal", choices := [] }]
        inputBoxes := [], applied := false, appliedChange := none
        crashed := false } :=
  C3_validation_fatal_aborts_with_first_fatal_message sampleDoc sampleRange
    "EXTRACT_WIDGET" fatalValidationSession
    { severity := .FATAL, message := "first fatal" }
    [{ severity := .FATAL, message := "second fatal" }]
    (by decide) (by decide)

/-- C4: whenever the edit-request response's three problem lists contain at
least one FATAL problem, shouldApplyEdits refuses the edits and shows, with
no choice offered and independently of any user reply, the de-duplicated
FATAL messages joined by blank lines followed by the refactor-not-applied
notice. -/
theorem C4_edit_fatals_abort_without_prompt
    (e : EditGetRefactoringResponse) (dv ov : Nat) (c : Option String)
    (hfatal : fatalProblems e ≠ []) :
    shouldApplyEdits e dv ov c =
      (false,
       [{ level := .error
          message := String.intercalate "\n\n"
              (unique ((fatalProblems e).map Problem.message))
            ++ "\n\nYour refactor was not applied."
          choices := [] }]) := by
  simp only [shouldApplyEdits]
  rw [if_pos]
  simpa using hfatal

/-- Witness for C4: duplicated FATAL messages collapse to one line, the user
reply `REFACTOR_ANYWAY` is ignored, and the edit-set present in the response
is not applied. -/
theorem C4_edit_fatals_witness :
    shouldApplyEdits fatalEditResponse 5 5 (some REFACTOR_ANYWAY) =
      (false,
       [{ level := .error
          message := "dup\n\nother\n\nYour refactor was not applied."
          choices := [] }]) := by
  have h := C4_edit_fatals_abort_without_prompt fatalEditResponse 5 5
    (some REFACTOR_ANYWAY) (by decide)
  simpa using h

/-- C5: whenever the edit-request response has no FATAL problem but its
`change` is absent, shouldApplyEdits returns false with no message and no
prompt, whatever ERROR or WARNING problems are present and whatever the user
reply would have been. -/
theorem C5_missing_change_aborts_silently
    (e : EditGetRefactoringResponse) (dv ov : Nat) (c : Option String)
    (hfatal : fatalProblems e = [])
    (hchange : e.change = none) :
    shouldApplyEdits e dv ov c = (false, []) := by
  simp [shouldApplyEdits, hfatal, hchange]

/-- Witness for C5 on a response carrying an ERROR and a WARNING problem but
no edit-set. -/
theorem C5_missing_change_witness :
    shouldApplyEdits noChangeResponse 5 5 (some REFACTOR_ANYWAY) = (false, []) :=
  C5_missing_change_aborts_silently noChangeResponse 5 5
    (some REFACTOR_ANYWAY) (by decide) (by decide)

/-- With the three-valued severity model, a response without FATAL problems
has its whole problem union in the ERROR-or-WARNING filter. -/
theorem warningProblems_of_no_fatal (e : EditGetRefactoringResponse)
    (h : fatalProblems e = []) : warningProblems e = allProblems e := by
  rw [fatalProblems, List.filter_eq_nil_iff] at h
  rw [warningProblems, List.filter_eq_self]
  intro a ha
  have ha2 := h a ha
  cases hsev : a.severity <;> simp_all

/-- C6: when the edit-request response carries only ERROR or WARNING problems
(no FATAL, at least one problem) and an edit-set, the de-duplicated messages
are shown joined by blank lines in a single-choice prompt labelled
`REFACTOR_ANYWAY`, at error level exactly when some problem is an ERROR;
selecting the choice with an unchanged document version approves the edits,
and not selecting it leaves them unapplied. -/
theorem C6_actionable_problems_prompt_and_consent
    (e : EditGetRefactoringResponse) (dv ov : Nat) (c : Option String)
    (ch : SourceChange)
    (hfatal : fatalProblems e = [])
    (hne : allProblems e ≠ [])
    (hchange : e.change = some ch) :
    (shouldApplyEdits e dv ov c).2.head? = some
        { level := if hasErrors e then .error else .warning
          message := String.intercalate "\n\n"
            (unique ((warningProblems e).map Problem.message))
          choices := [REFACTOR_ANYWAY] } ∧
      (c = some REFACTOR_ANYWAY → dv = ov →
        shouldApplyEdits e dv ov c =
          (true,
           [{ level := if hasErrors e then .error else .warning
              message := String.intercalate "\n\n"
                (unique ((warningProblems e).map Problem.message))
              choices := [REFACTOR_ANYWAY] }])) ∧
      (c ≠ some REFACTOR_ANYWAY → (shouldApplyEdits e dv ov c).1 = false) := by
  have hw := warningProblems_of_no_fatal e hfatal
  have hwne : warningProblems e ≠ [] := by rw [hw]; exact hne
  rcases hwp : warningProblems e with _ | ⟨w, ws⟩
  · exact absurd hwp hwne
  · by_cases hc : c = some REFACTOR_ANYWAY <;> by_cases hv : dv = ov <;>
      simp_all [shouldApplyEdits, hfatal, hchange]

/-- Witness for C6: duplicated WARNING messages collapse to one line in a
warning-level Refactor Anyway prompt; choosing it approves the edits, and
dismissing the prompt leaves them unapplied. -/
theorem C6_actionable_problems_witness :
    shouldApplyEdits warningEditResponse 5 5 (some REFACTOR_ANYWAY) =
      (true,
       [{ level := .warning, message := "careful\n\nreally"
          choices := [REFACTOR_ANYWAY] }]) ∧
    (shouldApplyEdits warningEditResponse 5 5 none).1 = false := by
  constructor
  · have h := (C6_actionable_problems_prompt_and_consent warningEditResponse 5 5
      (some REFACTOR_ANYWAY) ⟨3⟩ (by decide) (by decide) rfl).2.1 rfl rfl
    rw [h]
    decide
  · exact (C6_actionable_problems_prompt_and_consent warningEditResponse 5 5
      none ⟨3⟩ (by decide) (by decide) rfl).2.2 (by simp)

/-- C7: a stale document version at the final gate always blocks the apply
step; when the flow reaches the gate with consent (no FATAL problem, an
edit-set present, and either nothing to consent to or the user chose
Refactor Anyway) the fixed document-changed message is the last one shown;
and the final-gate version influences nothing earlier in the flow — the
requests issued and input boxes opened are the same whatever that version
turns out to be. -/
theorem C7_stale_document_blocks_apply_at_final_gate :
    (∀ (e : EditGetRefactoringResponse) (dv ov : Nat) (c : Option String),
        dv ≠ ov → (shouldApplyEdits e dv ov c).1 = false) ∧
      (∀ (e : EditGetRefactoringResponse) (dv ov : Nat) (c : Option String)
          (ch : SourceChange),
        fatalProblems e = [] → e.change = some ch →
        (warningProblems e = [] ∨ c = some REFACTOR_ANYWAY) → dv ≠ ov →
        (shouldApplyEdits e dv ov c).2.getLast? =
          some { level := .error, message := REFACTOR_FAILED_DOC_MODIFIED
                 choices := [] }) ∧
      (∀ (doc : TextDocument) (range : Range) (kind : String) (s : Session)
          (v₁ v₂ : Nat),
        (performRefactor (some doc) range kind
            { s with versionAtFinalGate := v₁ }).requests =
          (performRefactor (some doc) range kind
            { s with versionAtFinalGate := v₂ }).requests ∧
        (performRefactor (some doc) range kind
            { s with versionAtFinalGate := v₁ }).inputBoxes =
          (performRefactor (some doc) range kind
            { s with versionAtFinalGate := v₂ }).inputBoxes) := by
  refine ⟨?_, ?_, ?_⟩
  · intro e dv ov c h
    cases hfst : (shouldApplyEdits e dv ov c).1
    · rfl
    · exact absurd ((shouldApplyEdits_fst_true_iff e dv ov c).mp hfst).2.2.1 h
  · intro e dv ov c ch hf hc hcons hv
    rcases hwp : warningProblems e with _ | ⟨w, ws⟩ <;>
      by_cases hch : c = some REFACTOR_ANYWAY <;>
        simp_all [shouldApplyEdits]
  · intro doc range kind s v₁ v₂
    by_cases hcl : doc.isClosed
    · simp [performRefactor, hcl]
    · by_cases hab : (shouldAbortRefactor s.validationResult).1
      · simp [performRefactor, hcl, hab]
      · rcases hro : refactorOptions kind with _ | resolver
        · simp [performRefactor, hcl, hab, hro]
        · rcases hres : resolver s.validationResult.feedback s.nameInput with
            err | ⟨box, _ | o⟩ <;>
              simp [performRefactor, hcl, hab, hro, hres]

/-- Witness for C7 at a clean edit response whose final-gate version 6
differs from the baseline 5. -/
theorem C7_stale_document_witness :
    (shouldApplyEdits cleanResponse 6 5 none).1 = false ∧
    (shouldApplyEdits cleanResponse 6 5 none).2.getLast? =
      some { level := .error, message := REFACTOR_FAILED_DOC_MODIFIED
             choices := [] } :=
  ⟨C7_stale_document_blocks_apply_at_final_gate.1 cleanResponse 6 5 none
      (by decide),
   C7_stale_document_blocks_apply_at_final_gate.2.1 cleanResponse 6 5 none
      ⟨1⟩ (by decide) rfl (Or.inl (by decide)) (by decide)⟩

/-- C8: on feedback with names ["extracted"], no parameters and return type
"void", the extract-method resolver opens its name prompt seeded with the
default "extracted" and, when the user enters "computeTotal", produces exactly
the options with that name, createGetter and extractAll false, and parameters
and return type copied verbatim; the default is absent whenever the names
list is empty or missing, and the verbatim copy holds for every feedback and
every non-empty entered name. -/
theorem C8_extract_method_resolver
    (fb : ExtractMethodFeedback) (i : Option String) (n : String)
    (hnames : fb.names = none ∨ fb.names = some [])
    (hn : n ≠ "") :
    getExtractMethodArgs
        (some { names := some ["extracted"], parameters := [], returnType := "void" })
        (some "computeTotal") =
      .ok ({ prompt := "Enter a name for the method", value := some "extracted" },
        some { createGetter := false, extractAll := false, name := "computeTotal"
               parameters := [], returnType := "void" }) ∧
      (getExtractMethodArgs (some fb) i).map (fun r => r.1.value) =
        .ok none ∧
      (getExtractMethodArgs (some fb) (some n)).map
          (fun r => r.2.map (fun o => (o.name, o.parameters, o.returnType))) =
        .ok (some (n, fb.parameters, fb.returnType)) := by
  refine ⟨rfl, ?_, ?_⟩
  · have hsug : suggestedName fb = none := by
      rcases hnames with h | h <;> simp [suggestedName, h]
    rcases i with _ | name
    · simp [getExtractMethodArgs, hsug, Except.map]
    · by_cases hne : name = "" <;>
        simp [getExtractMethodArgs, hsug, hne, Except.map]
  · simp [getExtractMethodArgs, hn, Except.map]

/-- Witness for C8 at a feedback with a missing names list, one parameter
and return type "int", with entered name "f". -/
theorem C8_extract_method_resolver_witness :
    getExtractMethodArgs
        (some { names := some ["extracted"], parameters := [], returnType := "void" })
        (some "computeTotal") =
      .ok ({ prompt := "Enter a name for the method", value := some "extracted" },
        some { createGetter := false, extractAll := false, name := "computeTotal"
               parameters := [], returnType := "void" }) ∧
      (getExtractMethodArgs
          (some { names := none, parameters := ["int x"], returnType := "int" })
          (some "f")).map (fun r => r.1.value) =
        .ok none ∧
      (getExtractMethodArgs
          (some { names := none, parameters := ["int x"], returnType := "int" })
          (some "f")).map
          (fun r => r.2.map (fun o => (o.name, o.parameters, o.returnType))) =
        .ok (some ("f", ["int x"], "int")) :=
  C8_extract_method_resolver
    { names := none, parameters := ["int x"], returnType := "int" }
    (some "f") "f" (Or.inl rfl) (by decide)

/-- C9: when the user cancels the extract-method name prompt, the resolver
produces no options, the edit request is never issued, nothing is applied,
and the flow ends with no message shown and no crash. -/
theorem C9_cancelled_name_prompt_aborts_silently
    (doc : TextDocument) (range : Range) (s : Session)
    (fb : RefactoringFeedback)
    (hclosed : doc.isClosed = false)
    (hvalid : fatalProblems s.validationResult = [])
    (hfb : s.validationResult.feedback = some fb)
    (hname : s.nameInput = none) :
    (getExtractMethodArgs (some fb) none).map Prod.snd = .ok none ∧
    performRefactor (some doc) range "EXTRACT_METHOD" s =
      { requests := [getRefactor doc "EXTRACT_METHOD" range true none]
        messages := []
        inputBoxes := [{ prompt := "Enter a name for the method"
                         value := suggestedName fb }]
        applied := false, appliedChange := none, crashed := false } := by
  constructor
  · simp [getExtractMethodArgs, Except.map]
  · simp [performRefactor, hclosed, shouldAbortRefactor, hvalid,
      refactorOptions, hfb, hname, getExtractMethodArgs]

/-- Witness for C9 at a concrete cancelled prompt. -/
theorem C9_cancelled_name_prompt_witness :
    (getExtractMethodArgs (some sampleFeedback) none).map Prod.snd =
        .ok none ∧
      performRefactor (some sampleDoc) sampleRange "EXTRACT_METHOD"
          { okSession with nameInput := none } =
        { requests :=
            [getRefactor sampleDoc "EXTRACT_METHOD" sampleRange true none]
          messages := []
          inputBoxes := [{ prompt := "Enter a name for the method"
                           value := suggestedName sampleFeedback }]
          applied := false, appliedChange := none, crashed := false } :=
  C9_cancelled_name_prompt_aborts_silently sampleDoc sampleRange
    { okSession with nameInput := none } sampleFeedback
    (by decide) (by decide) rfl rfl

/-- C10: an empty string entered at the extract-method name prompt is treated
exactly like cancellation — no options, no edit request, nothing applied, no
message, no crash — so no refactor can be requested with an empty name. -/
theorem C10_empty_name_treated_as_cancellation
    (doc : TextDocument) (range : Range) (s : Session)
    (fb : RefactoringFeedback)
    (hclosed : doc.isClosed = false)
    (hvalid : fatalProblems s.validationResult = [])
    (hfb : s.validationResult.feedback = some fb)
    (hname : s.nameInput = some "") :
    (getExtractMethodArgs (some fb) (some "")).map Prod.snd = .ok none ∧
    getExtractMethodArgs (some fb) (some "") =
      getExtractMethodArgs (some fb) none ∧
    performRefactor (some doc) range "EXTRACT_METHOD" s =
      { requests := [getRefactor doc "EXTRACT_METHOD" range true none]
        messages := []
        inputBoxes := [{ prompt := "Enter a name for the method"
                         value := suggestedName fb }]
        applied := false, appliedChange := none, crashed := false } := by
  refine ⟨by simp [getExtractMethodArgs, Except.map],
    by simp [getExtractMethodArgs], ?_⟩
  simp [performRefactor, hclosed, shouldAbortRefactor, hvalid,
    refactorOptions, hfb, hname, getExtractMethodArgs]

/-- Witness for C10 at a concrete empty-string reply. -/
theorem C10_empty_name_witness :
    (getExtractMethodArgs (some sampleFeedback) (some "")).map Prod.snd =
        .ok none ∧
      getExtractMethodArgs (some sampleFeedback) (some "") =
        getExtractMethodArgs (some sampleFeedback) none ∧
      performRefactor (some sampleDoc) sampleRange "EXTRACT_METHOD"
          { okSession with nameInput := some "" } =
        { requests :=
            [getRefactor sampleDoc "EXTRACT_METHOD" sampleRange true none]
          messages := []
          inputBoxes := [{ prompt := "Enter a name for the method"
                           value := suggestedName sampleFeedback }]
          applied := false, appliedChange := none, crashed := false } :=
  C10_empty_name_treated_as_cancellation sampleDoc sampleRange
    { okSession with nameInput := some "" } sampleFeedback
    (by decide) (by decide) rfl rfl

end Refactor
